import Mathlib

/-!
Verification of the gogchat CLI (a Go command-line client for the Google
Chat API) against its natural-language specification.

The development shallowly embeds the parts of the program relevant to the
spec's testable properties: resource-name normalization, query-parameter
construction, the media upload/download request builders, the hint table
for API errors, credential resolution, the auto-refresh transport, the
logout command, and the process exit behaviour.  Functions of the Go
standard library used by the program (`strings.HasPrefix`,
`strings.Contains`, `path/filepath.Ext`, `path/filepath.Base`,
`mime.TypeByExtension`, `mime/multipart`) are embedded following their
documented behaviour.  Components of the repository whose sources are not
available (the generic API client and the auth package) are modelled from
the specification and marked as such in their doc comments.
-/

set_option autoImplicit false

namespace Gogchat

/-! ## Go standard-library string primitives -/

/-- Models Go `strings.HasPrefix(s, p)`: `p` is a prefix of `s`. -/
def strHasPre (s p : String) : Bool :=
  p.data.isPrefixOf s.data

/-- Models Go `strings.Contains(s, sub)`: `sub` occurs as a contiguous
substring of `s` (character-level). -/
def strContains (s sub : String) : Bool :=
  (List.range (s.data.length + 1)).any (fun i => sub.data.isPrefixOf (s.data.drop i))

/-- Models Go `strings.ToLower` on the ASCII strings the program compares
(character-wise lowercasing). -/
def strToLower (s : String) : String :=
  String.mk (s.data.map Char.toLower)

/-! ## Resource-name normalization -/

/-- Modelled from the spec: `NormalizeName` of the generic REST invoker
(package `api`, source not included in the snapshot; all service files call
it).  Per the spec, any resource-identifying argument that does not already
begin with its collection's path segment is prefixed with it, and arguments
that are already fully qualified pass through unchanged. -/
def NormalizeName (name pre : String) : String :=
  if strHasPre name pre then name else pre ++ name

/-! ## Query-parameter helpers -/

/-- Query parameters, modelling Go `url.Values` as an ordered list of
key/value pairs. -/
abbrev Values := List (String × String)

/-- Modelled from the spec: `AddQueryParam` of the generic REST invoker
(source not included; called by every service file).  A key whose string
value is the zero value `""` is omitted entirely. -/
def AddQueryParam (params : Values) (key value : String) : Values :=
  if value = "" then params else params ++ [(key, value)]

/-- Modelled from the spec: `AddQueryParamInt`.  A key whose integer value
is the zero value `0` is omitted entirely; otherwise the decimal rendering
of the value is added (Go `strconv.Itoa`). -/
def AddQueryParamInt (params : Values) (key : String) (value : Int) : Values :=
  if value = 0 then params else params ++ [(key, toString value)]

/-- Modelled from the spec: `AddQueryParamBool`.  A key whose boolean value
is the zero value `false` is omitted entirely; a `true` value renders as
`"true"` (Go `strconv.FormatBool`). -/
def AddQueryParamBool (params : Values) (key : String) (value : Bool) : Values :=
  if value then params ++ [(key, "true")] else params

/-- The pairs of `params` whose key is `key`. -/
def pairsFor (params : Values) (key : String) : Values :=
  params.filter (fun kv => kv.1 == key)

/-- The query parameters built by `SpacesService.Search`
(`src/unnamed/part_002`, lines 76-85). -/
def searchParams (query : String) (pageSize : Int) (pageToken orderBy : String)
    (useAdminAccess : Bool) : Values :=
  AddQueryParamBool
    (AddQueryParam
      (AddQueryParam
        (AddQueryParamInt
          (AddQueryParam [] "query" query)
          "pageSize" pageSize)
        "pageToken" pageToken)
      "orderBy" orderBy)
    "useAdminAccess" useAdminAccess

/-! ## API errors and the hint table (src/internal/cmd/errors.go) -/

/-- The structured API error: numeric code, symbolic status and human
message, as used by `findHint` (the detail blocks of the full Go struct play
no role in the embedded functions). -/
structure APIError where
  code : Int
  status : String
  message : String
  deriving Repr, DecidableEq

/-- One entry of the `knownErrors` table: match criteria plus the hint to
display. -/
structure KnownError where
  code : Int
  status : String
  msgContains : String
  hint : String
  deriving Repr, DecidableEq

/-- Hint of the 404 `NOT_FOUND` "Google Chat app not found" entry. -/
def appNotConfiguredHint : String :=
  "Your Google Cloud project has the Chat API enabled, but the Chat app\nis not configured. This is required by Google even for user-authenticated CLI tools.\n\nTo fix this:\n  1. Open: https://console.cloud.google.com/apis/api/chat.googleapis.com/hangouts-chat\n  2. Fill in the required fields (App name, Avatar URL, Description)\n  3. You can disable Interactive Features if you don\x27t need bot functionality\n  4. Click Save\n  5. Re-run your command"

/-- Hint of the 403 `PERMISSION_DENIED` "insufficient authentication scopes"
entry: the re-authentication hint (logout then login). -/
def insufficientScopesHint : String :=
  "Your access token is missing the required scopes for this operation.\n\nTo fix this:\n  1. Run: gogchat auth logout\n  2. Run: gogchat auth login\n  3. Re-authorize when prompted in your browser"

/-- Hint of the 403 `PERMISSION_DENIED` "Chat API has not been used" entry. -/
def apiNotEnabledHint : String :=
  "The Google Chat API is not enabled in your Google Cloud project.\n\nTo fix this:\n  1. Open: https://console.cloud.google.com/apis/library/chat.googleapis.com\n  2. Click \"Enable\"\n  3. Wait a few minutes for the change to propagate\n  4. Re-run your command"

/-- Hint of the 401 `UNAUTHENTICATED` entry: the not-authenticated hint. -/
def notAuthenticatedHint : String :=
  "Your authentication token is invalid or expired.\n\nTo fix this:\n  1. Run: gogchat auth logout\n  2. Run: gogchat auth login"

/-- Hint of the 429 `RESOURCE_EXHAUSTED` entry: the rate-limited
wait-and-retry hint. -/
def rateLimitedHint : String :=
  "You\x27ve exceeded the API rate limit. Wait a moment and try again.\nIf this persists, check your quota at:\n  https://console.cloud.google.com/apis/api/chat.googleapis.com/quotas"

/-- Hint of the 403 `PERMISSION_DENIED` "not allowed to manage this
resource" entry. -/
def notAllowedToManageHint : String :=
  "You don\x27t have permission to perform this operation.\nIf this is a Workspace admin operation, try adding --admin flag.\nMake sure you have the required role in Google Workspace admin console."

/-- The `knownErrors` table of src/internal/cmd/errors.go, in declaration
order. -/
def knownErrors : List KnownError :=
  [ ⟨404, "NOT_FOUND", "Google Chat app not found", appNotConfiguredHint⟩,
    ⟨403, "PERMISSION_DENIED", "insufficient authentication scopes", insufficientScopesHint⟩,
    ⟨403, "PERMISSION_DENIED", "Chat API has not been used", apiNotEnabledHint⟩,
    ⟨401, "UNAUTHENTICATED", "", notAuthenticatedHint⟩,
    ⟨429, "RESOURCE_EXHAUSTED", "", rateLimitedHint⟩,
    ⟨403, "PERMISSION_DENIED", "not allowed to manage this resource", notAllowedToManageHint⟩ ]

/-- The matching loop of `findHint`, recursing over the remaining table
entries exactly as the Go `for` loop with its three `continue` tests does. -/
def findHintIn (e : APIError) : List KnownError → String
  | [] => ""
  | ke :: rest =>
    if ke.code != 0 && ke.code != e.code then findHintIn e rest
    else if ke.status != "" && ke.status != e.status then findHintIn e rest
    else if ke.msgContains != ""
        && !(strContains (strToLower e.message) (strToLower ke.msgContains)) then findHintIn e rest
    else ke.hint

/-- `findHint` of src/internal/cmd/errors.go: searches `knownErrors` for an
actionable hint matching the given API error, returning `""` when none
matches. -/
def findHint (e : APIError) : String :=
  findHintIn e knownErrors

/-- The per-entry match predicate as the claim states it: the entry's code
is 0 or equals the error's code, the entry's status is empty or equals the
error's status exactly, and the entry's message substring is empty or
occurs case-insensitively in the error's message. -/
def hintMatches (e : APIError) (ke : KnownError) : Bool :=
  (ke.code == 0 || ke.code == e.code)
    && (ke.status == "" || ke.status == e.status)
    && (ke.msgContains == "" || strContains (strToLower e.message) (strToLower ke.msgContains))

/-! ## Process exit behaviour (src/unnamed/part_005, Execute) -/

/-- A command failure as surfaced to `Execute`: either a structured API
error (for instance 401 `UNAUTHENTICATED`, 403 `PERMISSION_DENIED`, 404
`NOT_FOUND` or 429 `RESOURCE_EXHAUSTED`) or any other error with its
message. -/
inductive CmdError where
  | apiError (e : APIError)
  | otherError (msg : String)
  deriving Repr, DecidableEq

/-- The process exit code produced by `Execute` (src/unnamed/part_005,
lines 109-114): any error from `rootCmd.Execute` is printed and the process
exits with code 1; on success `Execute` returns and the process exits
with code 0. -/
def executeExitCode : Option CmdError → Nat
  | none => 0
  | some _ => 1

/-! ## Media upload (src/unnamed/part_003, MediaService.Upload) -/

/-- The scanning loop of Go `path/filepath.Ext`, walking the path from its
end: stops at a path separator, returns from the final dot inclusive. -/
def extLoop : List Char → List Char → String
  | [], _ => ""
  | c :: rest, acc =>
    if c = '/' then ""
    else if c = '.' then String.mk (c :: acc)
    else extLoop rest (c :: acc)

/-- Models Go `path/filepath.Ext`: the suffix of the final slash-separated
element of the path beginning at its final dot, empty when there is no
dot. -/
def filepathExt (path : String) : String :=
  extLoop path.data.reverse []

/-- Models Go `path/filepath.Base`: the last element of the path after
trailing slashes are removed; `"."` for the empty path and `"/"` when the
path consists only of slashes. -/
def filepathBase (path : String) : String :=
  if path = "" then "."
  else
    let stripped := (path.data.reverse.dropWhile (fun c => c = '/')).reverse
    if stripped = [] then "/"
    else String.mk ((stripped.reverse.takeWhile (fun c => c ≠ '/')).reverse)

/-- The built-in extension table of Go `mime.TypeByExtension` (lowercase
keys). -/
def builtinMimeTypes : List (String × String) :=
  [ (".avif", "image/avif"), (".css", "text/css; charset=utf-8"),
    (".gif", "image/gif"), (".htm", "text/html; charset=utf-8"),
    (".html", "text/html; charset=utf-8"), (".jpeg", "image/jpeg"),
    (".jpg", "image/jpeg"), (".js", "text/javascript; charset=utf-8"),
    (".json", "application/json"), (".mjs", "text/javascript; charset=utf-8"),
    (".pdf", "application/pdf"), (".png", "image/png"),
    (".svg", "image/svg+xml"), (".wasm", "application/wasm"),
    (".webp", "image/webp"), (".xml", "text/xml; charset=utf-8") ]

/-- Models Go `mime.TypeByExtension` over its built-in table: exact lookup
first, then lowercase lookup, otherwise empty. -/
def mimeTypeByExtension (ext : String) : String :=
  match builtinMimeTypes.lookup ext with
  | some t => t
  | none =>
    match builtinMimeTypes.lookup (strToLower ext) with
    | some t => t
    | none => ""

/-- The content type `MediaService.Upload` detects from the file extension
(src/unnamed/part_003, lines 37-42), falling back to
`application/octet-stream`. -/
def uploadDetectedContentType (filePath : String) : String :=
  let contentType := mimeTypeByExtension (filepathExt filePath)
  if contentType = "" then "application/octet-stream" else contentType

/-- One part of a `mime/multipart` body: form field name, optional file
name of the content disposition, optional declared Content-Type header of
the part, and the part's payload. -/
structure MultipartPart where
  fieldName : String
  fileName : Option String
  contentType : Option String
  content : String
  deriving Repr, DecidableEq

/-- Models Go `multipart.Writer.CreateFormFile` followed by copying
`content` into the part: the Go standard library fixes the part's
Content-Type header to `application/octet-stream`. -/
def createFormFile (fieldName fileName content : String) : MultipartPart :=
  ⟨fieldName, some fileName, some "application/octet-stream", content⟩

/-- Models Go `multipart.Writer.WriteField`: a part carrying only a
content disposition and the value, with no Content-Type header. -/
def writeField (fieldName value : String) : MultipartPart :=
  ⟨fieldName, none, none, value⟩

/-- The request `MediaService.Upload` builds: target path and multipart
body parts. -/
structure UploadRequest where
  path : String
  parts : List MultipartPart
  deriving Repr, DecidableEq

/-- `MediaService.Upload` (src/unnamed/part_003, lines 28-68): normalizes
the parent space name, detects a content type from the file extension (a
value the function never uses afterwards), and builds a multipart body
from `CreateFormFile("file", base)` carrying the file's content, followed
by `WriteField("filename", base)`. -/
def mediaUpload (parent filePath fileContent : String) : UploadRequest :=
  let parent := NormalizeName parent "spaces/"
  let _contentType := uploadDetectedContentType filePath
  let filePart := createFormFile "file" (filepathBase filePath) fileContent
  ⟨parent ++ "/attachments:upload",
   [filePart, writeField "filename" (filepathBase filePath)]⟩

/-! ## Media download (src/unnamed/part_003, MediaService.Download) -/

/-- An HTTP response as the download path consumes it: status code,
declared Content-Type header, and the (unread) body. -/
structure HTTPResponse where
  statusCode : Int
  contentType : String
  body : String
  deriving Repr, DecidableEq

/-- An HTTP request as the download path builds it: method and URL. -/
structure HTTPRequest where
  method : String
  url : String
  deriving Repr, DecidableEq

/-- The GET request `MediaService.Download` issues (src/unnamed/part_003,
lines 73-86): the media-serving path for the resource with the `alt=media`
query flag encoded into the path, appended to the client base URL. -/
def mediaDownloadRequest (baseURL resourceName : String) : HTTPRequest :=
  let path := "media/" ++ resourceName
  let fullPath := path ++ "?alt=media"
  ⟨"GET", baseURL ++ "/" ++ fullPath⟩

/-- A failed download: either the structured error parsed from the body,
or the generic error carrying the raw status code and the raw body text
verbatim (Go `fmt.Errorf("unexpected status %d: %s", ...)`). -/
inductive DownloadError where
  | structured (e : APIError)
  | generic (statusCode : Int) (rawBody : String)
  deriving Repr, DecidableEq

/-- The response handling of `MediaService.Download` (src/unnamed/part_003,
lines 93-104): a non-2xx response becomes a `DownloadError` — structured
when `parseAPIErrorFromBody` yields an error, generic otherwise — and a
2xx response returns the unread body as the stream together with the
declared Content-Type.  `parse` stands for `parseAPIErrorFromBody`, whose
source is not in the snapshot; per the spec it yields no structured error
exactly when the body cannot be parsed as the error envelope. -/
def mediaDownloadResult (parse : Int → String → Option APIError)
    (resp : HTTPResponse) : Except DownloadError (String × String) :=
  if resp.statusCode < 200 ∨ 300 ≤ resp.statusCode then
    match parse resp.statusCode resp.body with
    | some e => .error (.structured e)
    | none => .error (.generic resp.statusCode resp.body)
  else .ok (resp.body, resp.contentType)

/-! ## Credential resolution (src/internal/cmd/auth.go) -/

/-- Failure of credential validation. -/
inductive AuthError where
  | invalidCredentials
  deriving Repr, DecidableEq

/-- Modelled from the spec: `auth.ValidateCredentials` (the auth package is
not in the snapshot) fails with `InvalidCredentials` exactly when the
client ID or the client secret is empty. -/
def ValidateCredentials (clientID clientSecret : String) : Option AuthError :=
  if clientID = "" ∨ clientSecret = "" then some .invalidCredentials else none

/-- `resolveCredentials` (src/internal/cmd/auth.go, lines 35-60): flag
values win; empty flag values fall back to the configuration values; still
empty values fall back to the built-in defaults (`auth.DefaultClientID`
and `auth.DefaultClientSecret`, parameters here because the auth package
is not in the snapshot); the resolved pair is then validated. -/
def resolveCredentials (flagID flagSecret cfgID cfgSecret defID defSecret : String) :
    Except AuthError (String × String) :=
  let clientID := flagID
  let clientSecret := flagSecret
  let clientID := if clientID = "" then cfgID else clientID
  let clientSecret := if clientSecret = "" then cfgSecret else clientSecret
  let clientID := if clientID = "" then defID else clientID
  let clientSecret := if clientSecret = "" then defSecret else clientSecret
  match ValidateCredentials clientID clientSecret with
  | some e => .error e
  | none => .ok (clientID, clientSecret)

/-! ## Authenticated transport (modelled from spec section 4.4) -/

/-- The OAuth2 token record: access token plus optional refresh token (the
further fields play no role in the embedded operations). -/
structure Token where
  accessToken : String
  refreshToken : Option String
  deriving Repr, DecidableEq

/-- Outcome of one logical request through the authenticated transport. -/
inductive TransportOutcome where
  | notAuthenticated
  | response (r : HTTPResponse)
  deriving Repr, DecidableEq

/-- Trace of one round trip through the transport: its outcome, how many
times the original request was sent, and how many refresh-token exchanges
were performed. -/
structure TransportTrace where
  outcome : TransportOutcome
  sends : Nat
  refreshes : Nat
  deriving Repr, DecidableEq

/-- Modelled from the spec: the Authenticated Transport (auth package not
in the snapshot).  `send t` is the response to the original request sent
with access token `t`; `refreshExchange rt` is the token produced by a
refresh-token exchange with refresh token `rt`, `none` when the exchange
fails.  A 401 response with a refresh token present triggers exactly one
refresh exchange and at most one retry of the original request; a failed
refresh or an absent refresh token propagates as not-authenticated. -/
def transportRoundTrip (tok : Token) (send : String → HTTPResponse)
    (refreshExchange : String → Option Token) : TransportTrace :=
  let r1 := send tok.accessToken
  if r1.statusCode = 401 then
    match tok.refreshToken with
    | none => ⟨.notAuthenticated, 1, 0⟩
    | some rt =>
      match refreshExchange rt with
      | none => ⟨.notAuthenticated, 1, 1⟩
      | some tok2 => ⟨.response (send tok2.accessToken), 2, 1⟩
  else ⟨.response r1, 1, 0⟩

/-! ## Logout (src/internal/cmd/auth.go, newLogoutCmd) -/

/-- The token store on disk: the stored tokens by file path, together with
which paths a removal attempt fails at (an `os.Remove` error, for instance
a permission error) — per the spec's Token Store contract, delete can
return an error. -/
structure TokenFS where
  contents : String → Option Token
  deleteFails : String → Bool

/-- Modelled from the spec: `auth.TokenExists` (auth package not in the
snapshot): whether a token file exists at the path. -/
def TokenExists (fs : TokenFS) (path : String) : Bool :=
  (fs.contents path).isSome

/-- Modelled from the spec: `auth.DeleteToken` removes the token file at
the path; per the Token Store contract `delete(path)` may return an error,
in which case the file remains.  Returns the store afterwards and whether
the delete failed. -/
def DeleteToken (fs : TokenFS) (path : String) : TokenFS × Bool :=
  if fs.deleteFails path then (fs, true)
  else ({ fs with contents := fun q => if q = path then none else fs.contents q }, false)

/-- Result of one run of `gogchat auth logout`: the token store afterwards,
whether the run returned an error, and whether it attempted a delete. -/
structure LogoutRun where
  fs : TokenFS
  errored : Bool
  deleted : Bool

/-- The `RunE` of `newLogoutCmd` (src/internal/cmd/auth.go, lines
126-140): when no token exists at the resolved path the command reports
"nothing to do" and returns no error without attempting a delete;
otherwise it attempts the delete and propagates its failure as the
command's error. -/
def logoutRun (fs : TokenFS) (path : String) : LogoutRun :=
  if TokenExists fs path then
    let d := DeleteToken fs path
    ⟨d.1, d.2, true⟩
  else ⟨fs, false, false⟩

/-- A concrete store holding a token at path `"p"` whose removal fails. -/
def undeletableStore : TokenFS :=
  ⟨fun q => if q = "p" then some ⟨"at", some "rt"⟩ else none, fun _ => true⟩

/-- A concrete store holding a token at path `"p"` whose removal
succeeds. -/
def deletableStore : TokenFS :=
  ⟨fun q => if q = "p" then some ⟨"at", some "rt"⟩ else none, fun _ => false⟩

end Gogchat

namespace Gogchat

/-! ## Theorems -/

theorem strHasPre_append (p x : String) : strHasPre (p ++ x) p = true := by
  simp only [strHasPre, String.data_append]
  exact List.isPrefixOf_iff_prefix.mpr (List.prefix_append _ _)

/-- Claim C1: resource-name normalization is idempotent and prefixing.
For every identifier `x` and collection segment `p`,
`NormalizeName (NormalizeName x p) p = NormalizeName x p`, the result of
`NormalizeName x p` always starts with `p`, and when `x` already starts
with `p` it passes through unchanged. -/
theorem normalizeName_idempotent_and_prefixing (x p : String) :
    NormalizeName (NormalizeName x p) p = NormalizeName x p
      ∧ strHasPre (NormalizeName x p) p = true
      ∧ (strHasPre x p = true → NormalizeName x p = x) := by
  refine ⟨?_, ?_, ?_⟩
  · by_cases h : strHasPre x p = true
    · simp [NormalizeName, h]
    · simp only [NormalizeName, h, if_neg, Bool.not_eq_true] at *
      simp [NormalizeName, h, strHasPre_append]
  · by_cases h : strHasPre x p = true
    · simp [NormalizeName, h]
    · simp [NormalizeName, h, strHasPre_append]
  · intro h
    simp [NormalizeName, h]

/-- Witness for C1 at a concrete input: `"spaces/ABC"` already carries the
`"spaces/"` collection segment, so normalization leaves it unchanged. -/
theorem normalizeName_idempotent_and_prefixing_witness :
    NormalizeName "spaces/ABC" "spaces/" = "spaces/ABC" :=
  (normalizeName_idempotent_and_prefixing "spaces/ABC" "spaces/").2.2 (by decide)

theorem pairsFor_append (ps qs : Values) (k : String) :
    pairsFor (ps ++ qs) k = pairsFor ps k ++ pairsFor qs k := by
  simp [pairsFor, List.filter_append]

/-- Claim C2: query-parameter construction omits zero-valued keys.  Starting
from a parameter set not yet containing `k`, adding `k` with the zero value
of its type (empty string, `0`, `false`) leaves `k` absent from the result,
while adding `k` with a non-zero value makes `k` appear exactly once, with
exactly the given value (integers rendered in decimal, `true` as
`"true"`). -/
theorem addQueryParam_zero_omitted_nonzero_once (ps : Values) (k v : String) (n : Int)
    (h : pairsFor ps k = []) :
    pairsFor (AddQueryParam ps k "") k = []
      ∧ pairsFor (AddQueryParamInt ps k 0) k = []
      ∧ pairsFor (AddQueryParamBool ps k false) k = []
      ∧ (v ≠ "" → pairsFor (AddQueryParam ps k v) k = [(k, v)])
      ∧ (n ≠ 0 → pairsFor (AddQueryParamInt ps k n) k = [(k, toString n)])
      ∧ pairsFor (AddQueryParamBool ps k true) k = [(k, "true")] := by
  refine ⟨?_, ?_, ?_, ?_, ?_, ?_⟩
  · simp [AddQueryParam, h]
  · simp [AddQueryParamInt, h]
  · simp [AddQueryParamBool, h]
  · intro hv
    rw [AddQueryParam, if_neg hv, pairsFor_append, h]
    simp [pairsFor]
  · intro hn
    rw [AddQueryParamInt, if_neg hn, pairsFor_append, h]
    simp [pairsFor]
  · rw [AddQueryParamBool, if_pos rfl, pairsFor_append, h]
    simp [pairsFor]

/-- Witness for C2 at concrete inputs, over the parameter set that
`SpacesService.Search` builds: an empty `query`, a zero `pageSize` and a
`false` `useAdminAccess` are all omitted, while a non-empty `pageToken`
appears exactly once with its exact value. -/
theorem addQueryParam_zero_omitted_nonzero_once_witness :
    pairsFor (AddQueryParam [("query", "q")] "pageToken" "") "pageToken" = []
      ∧ pairsFor (AddQueryParam [("query", "q")] "pageToken" "tok") "pageToken"
          = [("pageToken", "tok")]
      ∧ searchParams "" 0 "tok" "" false = [("pageToken", "tok")] := by
  refine ⟨?_, ?_, ?_⟩
  · exact (addQueryParam_zero_omitted_nonzero_once [("query", "q")] "pageToken" "tok" 7
      (by decide)).1
  · exact (addQueryParam_zero_omitted_nonzero_once [("query", "q")] "pageToken" "tok" 7
      (by decide)).2.2.2.1 (by decide)
  · decide

theorem findHintIn_cons (e : APIError) (ke : KnownError) (rest : List KnownError) :
    findHintIn e (ke :: rest)
      = if hintMatches e ke then ke.hint else findHintIn e rest := by
  simp only [findHintIn, hintMatches, bne, Bool.and_eq_true, Bool.not_eq_true',
    Bool.or_eq_true]
  by_cases h1 : (ke.code == 0) = true <;>
    by_cases h2 : (ke.code == e.code) = true <;>
      by_cases h3 : (ke.status == "") = true <;>
        by_cases h4 : (ke.status == e.status) = true <;>
          by_cases h5 : (ke.msgContains == "") = true <;>
            by_cases h6 : strContains (strToLower e.message) (strToLower ke.msgContains) = true <;>
              simp_all

theorem findHintIn_eq_find (e : APIError) (l : List KnownError) :
    findHintIn e l
      = match l.find? (hintMatches e) with
        | some ke => ke.hint
        | none => "" := by
  induction l with
  | nil => rfl
  | cons ke rest ih =>
    rw [findHintIn_cons]
    by_cases h : hintMatches e ke = true
    · rw [if_pos h, List.find?_cons_of_pos _ h]
    · rw [if_neg (by simpa using h), List.find?_cons_of_neg _ (by simpa using h), ih]

/-- Claim C9: hint lookup is first-match in declaration order.  `findHint`
returns the hint of the first `knownErrors` entry whose code is 0 or equals
the error's code, whose status is empty or equals the error's status
exactly, and whose message substring is empty or occurs case-insensitively
in the error's message; it returns the empty string if and only if no entry
matches. -/
theorem findHint_first_match (e : APIError) :
    (findHint e
      = match knownErrors.find? (hintMatches e) with
        | some ke => ke.hint
        | none => "")
      ∧ (findHint e = "" ↔ knownErrors.find? (hintMatches e) = none) := by
  have hmain := findHintIn_eq_find e knownErrors
  refine ⟨hmain, ?_⟩
  have hne : ∀ ke ∈ knownErrors, ke.hint ≠ "" := by decide
  rw [findHint, hmain]
  cases hf : knownErrors.find? (hintMatches e) with
  | none => simp
  | some ke =>
    have := hne ke (List.mem_of_find?_eq_some hf)
    simp [this]

/-- Counterexample to claim C4 as stated.  The claim says any 401 response
is classified as not-authenticated, and that a 403 whose message contains
"insufficient authentication scopes" yields the re-authentication hint; but
the 401 table entry also requires status `UNAUTHENTICATED` and the 403
scopes entry also requires status `PERMISSION_DENIED`, so at these concrete
inputs no entry matches and no hint is produced. -/
theorem findHint_status_counterexample :
    findHint ⟨401, "", "token expired"⟩ ≠ notAuthenticatedHint
      ∧ findHint ⟨403, "", "Request had insufficient authentication scopes."⟩
          ≠ insufficientScopesHint := by
  constructor <;> decide

/-- Claim C4 (amended): a 429 response with status `RESOURCE_EXHAUSTED` is
classified as rate-limited with its wait-and-retry hint; a 401 response
with status `UNAUTHENTICATED` is classified as not-authenticated; and a 403
response with status `PERMISSION_DENIED` whose message contains
"insufficient authentication scopes" (case-insensitively) yields the
re-authentication hint (logout then login); each for every message. -/
theorem findHint_classification_scenarios (msg : String) :
    findHint ⟨429, "RESOURCE_EXHAUSTED", msg⟩ = rateLimitedHint
      ∧ findHint ⟨401, "UNAUTHENTICATED", msg⟩ = notAuthenticatedHint
      ∧ (strContains (strToLower msg) "insufficient authentication scopes" = true →
          findHint ⟨403, "PERMISSION_DENIED", msg⟩ = insufficientScopesHint) := by
  have hlow : strToLower "insufficient authentication scopes"
      = "insufficient authentication scopes" := by decide
  refine ⟨?_, ?_, ?_⟩
  · simp [findHint, knownErrors, findHintIn_cons, hintMatches]
  · simp [findHint, knownErrors, findHintIn_cons, hintMatches]
  · intro h
    simp [findHint, knownErrors, findHintIn_cons, hintMatches, hlow, h]

/-- Witness for C4 (amended) at a concrete input: a 403
`PERMISSION_DENIED` error whose message contains the scopes phrase yields
the re-authentication hint. -/
theorem findHint_classification_scenarios_witness :
    findHint ⟨403, "PERMISSION_DENIED", "Request had insufficient authentication scopes."⟩
      = insufficientScopesHint :=
  (findHint_classification_scenarios
    "Request had insufficient authentication scopes.").2.2 (by decide)

/-- Counterexample to claim C8 as stated: `Execute` exits with the same
code 1 for not-authenticated, permission-denied, not-found and
rate-limited failures as for a general error — the error classes do not
receive distinct exit codes. -/
theorem executeExitCode_counterexample :
    executeExitCode (some (.apiError ⟨401, "UNAUTHENTICATED", "expired"⟩))
        = executeExitCode (some (.otherError "boom"))
      ∧ executeExitCode (some (.apiError ⟨403, "PERMISSION_DENIED", "denied"⟩))
          = executeExitCode (some (.otherError "boom"))
      ∧ executeExitCode (some (.apiError ⟨404, "NOT_FOUND", "missing"⟩))
          = executeExitCode (some (.otherError "boom"))
      ∧ executeExitCode (some (.apiError ⟨429, "RESOURCE_EXHAUSTED", "slow down"⟩))
          = executeExitCode (some (.otherError "boom"))
      ∧ executeExitCode (some (.otherError "boom")) = 1
      ∧ executeExitCode none = 0 :=
  ⟨rfl, rfl, rfl, rfl, rfl, rfl⟩

/-- Claim C8 (amended): when a command fails, the process exits with the
single general-error exit code 1 regardless of the error class, and
success exits with code 0. -/
theorem executeExitCode_uniform (e : CmdError) :
    executeExitCode (some e) = 1 ∧ executeExitCode none = 0 :=
  ⟨rfl, rfl⟩

/-- Claim C3 evaluated at the failing input `report.pdf`: the `filename`
metadata field equals the file's base name `report.pdf` and the content
type detected from the extension is `application/pdf`, but the detected
value is never used — the file part the code actually builds declares
`application/octet-stream` (the header `CreateFormFile` fixes), not
`application/pdf`. -/
theorem mediaUpload_report_pdf_divergence :
    uploadDetectedContentType "report.pdf" = "application/pdf"
      ∧ (mediaUpload "ABC" "report.pdf" "%PDF-1.7").parts
          = [⟨"file", some "report.pdf", some "application/octet-stream", "%PDF-1.7"⟩,
             ⟨"filename", none, none, "report.pdf"⟩]
      ∧ (some "application/octet-stream" : Option String) ≠ some "application/pdf"
      ∧ (mediaUpload "ABC" "report.pdf" "%PDF-1.7").path
          = "spaces/ABC/attachments:upload" := by
  exact ⟨by decide, by decide, by decide, by decide⟩

/-- Claim C6: the media download issues a GET against
`media/<resourceName>` with the `alt=media` flag set; a 2xx response
returns the unread body as the stream plus the declared Content-Type; a
non-2xx response returns no stream and either the structured error parsed
from the body or, when the body does not parse as the error envelope, the
generic error carrying the raw status code and the raw body text
verbatim. -/
theorem mediaDownload_request_and_result (baseURL name : String)
    (parse : Int → String → Option APIError) (resp : HTTPResponse) :
    mediaDownloadRequest baseURL name
        = ⟨"GET", baseURL ++ "/media/" ++ name ++ "?alt=media"⟩
      ∧ (200 ≤ resp.statusCode → resp.statusCode < 300 →
          mediaDownloadResult parse resp = .ok (resp.body, resp.contentType))
      ∧ (resp.statusCode < 200 ∨ 300 ≤ resp.statusCode →
          ∀ e, parse resp.statusCode resp.body = some e →
            mediaDownloadResult parse resp = .error (.structured e))
      ∧ (resp.statusCode < 200 ∨ 300 ≤ resp.statusCode →
          parse resp.statusCode resp.body = none →
            mediaDownloadResult parse resp
              = .error (.generic resp.statusCode resp.body)) := by
  refine ⟨?_, ?_, ?_, ?_⟩
  · simp only [mediaDownloadRequest, HTTPRequest.mk.injEq, true_and]
    apply String.ext
    simp [String.data_append]
  · intro h1 h2
    rw [mediaDownloadResult, if_neg (by omega)]
  · rintro h e he
    rw [mediaDownloadResult, if_pos h, he]
  · intro h hp
    rw [mediaDownloadResult, if_pos h, hp]

/-- Witness for C6 at concrete inputs: a 200 response streams its body and
content type, and a 500 response whose body is not the error envelope
yields the generic error carrying status and body verbatim. -/
theorem mediaDownload_request_and_result_witness :
    mediaDownloadResult (fun _ _ => none) ⟨200, "image/png", "PNGDATA"⟩
        = .ok ("PNGDATA", "image/png")
      ∧ mediaDownloadResult (fun _ _ => none) ⟨500, "text/plain", "oops"⟩
          = .error (.generic 500 "oops") := by
  constructor
  · exact (mediaDownload_request_and_result "https://chat.googleapis.com/v1" "spaces/A/x"
      (fun _ _ => none) ⟨200, "image/png", "PNGDATA"⟩).2.1 (by decide) (by decide)
  · exact (mediaDownload_request_and_result "https://chat.googleapis.com/v1" "spaces/A/x"
      (fun _ _ => none) ⟨500, "text/plain", "oops"⟩).2.2.2 (by decide) rfl

/-- Claim C7: credential resolution obeys the precedence explicit flag
value (when non-empty) over persisted configuration value (when
non-empty) over compiled-in default, independently for client ID and
client secret, and fails with `InvalidCredentials` exactly when the
resolved client ID or secret is still empty after all fallbacks. -/
theorem resolveCredentials_precedence
    (flagID flagSecret cfgID cfgSecret defID defSecret : String) :
    resolveCredentials flagID flagSecret cfgID cfgSecret defID defSecret
      = (let rid := if flagID ≠ "" then flagID else if cfgID ≠ "" then cfgID else defID
         let rsec := if flagSecret ≠ "" then flagSecret
           else if cfgSecret ≠ "" then cfgSecret else defSecret
         if rid = "" ∨ rsec = "" then .error .invalidCredentials else .ok (rid, rsec)) := by
  by_cases h1 : flagID = "" <;> by_cases h2 : cfgID = "" <;>
    by_cases h3 : flagSecret = "" <;> by_cases h4 : cfgSecret = "" <;>
      simp [resolveCredentials, ValidateCredentials, h1, h2, h3, h4] <;>
        split_ifs <;> simp_all

/-- Claim C5: for every request, token and refresh behaviour, the
authenticated transport sends the original request at most twice (so it
retries at most once and never loops), performs at most one refresh-token
exchange, and when the first response is a 401 an absent refresh token or
a failed refresh exchange propagates as not-authenticated. -/
theorem transportRoundTrip_single_refresh (tok : Token)
    (send : String → HTTPResponse) (refreshExchange : String → Option Token) :
    (transportRoundTrip tok send refreshExchange).sends ≤ 2
      ∧ (transportRoundTrip tok send refreshExchange).refreshes ≤ 1
      ∧ ((send tok.accessToken).statusCode = 401 → tok.refreshToken = none →
          (transportRoundTrip tok send refreshExchange).outcome = .notAuthenticated)
      ∧ ((send tok.accessToken).statusCode = 401 →
          ∀ rt, tok.refreshToken = some rt → refreshExchange rt = none →
            (transportRoundTrip tok send refreshExchange).outcome
              = .notAuthenticated) := by
  by_cases h : (send tok.accessToken).statusCode = 401
  · cases hrt : tok.refreshToken with
    | none => refine ⟨?_, ?_, ?_, ?_⟩ <;> simp [transportRoundTrip, h, hrt]
    | some rt =>
      cases hre : refreshExchange rt with
      | none => refine ⟨?_, ?_, ?_, ?_⟩ <;> simp [transportRoundTrip, h, hrt, hre]
      | some tok2 =>
        refine ⟨?_, ?_, ?_, ?_⟩ <;> simp [transportRoundTrip, h, hrt, hre]
  · refine ⟨?_, ?_, ?_, ?_⟩ <;> simp [transportRoundTrip, h]

/-- Witness for C5 at concrete inputs: with no refresh token stored, a 401
response propagates as not-authenticated, and with a stored refresh token
whose exchange fails, a 401 response also propagates as
not-authenticated. -/
theorem transportRoundTrip_single_refresh_witness :
    (transportRoundTrip ⟨"at", none⟩ (fun _ => ⟨401, "", ""⟩) (fun _ => none)).outcome
        = .notAuthenticated
      ∧ (transportRoundTrip ⟨"at", some "rt"⟩ (fun _ => ⟨401, "", ""⟩)
          (fun _ => none)).outcome = .notAuthenticated := by
  constructor
  · exact (transportRoundTrip_single_refresh ⟨"at", none⟩ (fun _ => ⟨401, "", ""⟩)
      (fun _ => none)).2.2.1 rfl rfl
  · exact (transportRoundTrip_single_refresh ⟨"at", some "rt"⟩ (fun _ => ⟨401, "", ""⟩)
      (fun _ => none)).2.2.2 rfl "rt" rfl rfl

/-- Counterexample to claim C10 as stated: when the token file exists but
its removal fails, the first logout run returns the delete error and
leaves the token in place, so the second consecutive run attempts a delete
again and fails again — running logout twice in a row does not always
succeed, and the second run does perform a delete operation. -/
theorem logoutRun_failed_delete_counterexample :
    (logoutRun undeletableStore "p").errored = true
      ∧ (logoutRun (logoutRun undeletableStore "p").fs "p").deleted = true
      ∧ (logoutRun (logoutRun undeletableStore "p").fs "p").errored = true := by
  refine ⟨by decide, by decide, by decide⟩

/-- Claim C10 (amended): when no token file exists at the resolved path
the logout command succeeds without attempting any deletion; consequently,
after any logout run that did not return an error, an immediately
following run at the same path succeeds and performs no delete
operation. -/
theorem logoutRun_success_idempotent (fs : TokenFS) (path : String) :
    (fs.contents path = none → logoutRun fs path = ⟨fs, false, false⟩)
      ∧ ((logoutRun fs path).errored = false →
          (logoutRun (logoutRun fs path).fs path).errored = false
            ∧ (logoutRun (logoutRun fs path).fs path).deleted = false) := by
  have hrun : ∀ g : TokenFS, g.contents path = none →
      logoutRun g path = ⟨g, false, false⟩ := by
    intro g hg
    rw [logoutRun, if_neg (by simp [TokenExists, hg])]
  constructor
  · intro h
    exact hrun fs h
  · intro h
    have hnone : (logoutRun fs path).fs.contents path = none := by
      by_cases he : TokenExists fs path
      · rw [logoutRun, if_pos he] at h ⊢
        by_cases hd : fs.deleteFails path = true
        · rw [DeleteToken, if_pos hd] at h
          simp at h
        · rw [DeleteToken, if_neg hd]
          simp
      · rw [logoutRun, if_neg he]
        simpa [TokenExists] using he
    rw [hrun _ hnone]
    exact ⟨rfl, rfl⟩

/-- Witness for C10 (amended) at concrete inputs: with no token stored
logout succeeds and performs no delete, and after a successful logout of
an existing, removable token the following run succeeds and performs no
delete. -/
theorem logoutRun_success_idempotent_witness :
    logoutRun ⟨fun _ => none, fun _ => false⟩ "p"
        = ⟨⟨fun _ => none, fun _ => false⟩, false, false⟩
      ∧ ((logoutRun (logoutRun deletableStore "p").fs "p").errored = false
          ∧ (logoutRun (logoutRun deletableStore "p").fs "p").deleted = false) :=
  ⟨(logoutRun_success_idempotent ⟨fun _ => none, fun _ => false⟩ "p").1 rfl,
   (logoutRun_success_idempotent deletableStore "p").2 (by decide)⟩

end Gogchat
